import Mathlib

/-!
Shallow embedding of the BreachGuard backend (src/main.py, src/schemas.py):
a single-endpoint service that checks an email against a breach source
(real HIBP lookup when a credential is configured, a canned demo data set
otherwise), normalizes the raw upstream records into a canonical `Breach`
shape, best-effort persists a `Check` record, and returns a response.

JSON-ish dynamic values are modelled by `PyVal`; a raw upstream record
(a Python dict observed only through `.get`) by an association list;
Python's truthiness-based `x or y` by `pyOr`.
-/

/-- A dynamic (JSON-like) Python value as it appears in raw breach records.
The only list-valued field these records carry is `DataClasses`, a list of
strings, so the list case holds strings. -/
inductive PyVal where
  | none : PyVal
  | str : String → PyVal
  | int : Int → PyVal
  | bool : Bool → PyVal
  | list : List String → PyVal
deriving DecidableEq, Repr

/-- Python truthiness of a `PyVal` (`bool(v)`): `None`, `""`, `0`, `False`
and `[]` are falsy, everything else truthy. -/
def PyVal.truthy : PyVal → Bool
  | .none => false
  | .str s => s != ""
  | .int n => n != 0
  | .bool b => b
  | .list l => !l.isEmpty

/-- Python's short-circuit `x or y`: returns `x` when `x` is truthy,
otherwise `y` (even when `y` is falsy). -/
def pyOr (x y : PyVal) : PyVal :=
  if x.truthy then x else y

/-- A raw upstream breach record: a JSON object, i.e. a Python dict,
observed by `main.py` only through `dict.get`. -/
abbrev RawRecord := List (String × PyVal)

/-- `b.get(k)`: the value bound to key `k`, or `None` when the key is
absent (the code never distinguishes an absent key from a stored `None`). -/
def RawRecord.get (b : RawRecord) (k : String) : PyVal :=
  match b.lookup k with
  | some v => v
  | Option.none => .none

/-- Canonical breach shape (`schemas.Breach`); the field values are the
dynamic values `main.py` assigns to the pydantic constructor. -/
structure Breach where
  name : PyVal
  domain : PyVal
  breachDate : PyVal
  addedDate : PyVal
  pwnCount : PyVal
  description : PyVal
  dataClasses : PyVal
  isVerified : PyVal
deriving DecidableEq, Repr

/-- The normalization of one raw record into a `Breach`
(src/main.py lines 92-104): each field is `b.get(Upper) or b.get(lower)`
with a trailing default for `name` and `dataClasses`; `isVerified` alone
is resolved by presence (`is not None`) rather than truthiness. -/
def normalizeBreach (b : RawRecord) : Breach :=
  { name := pyOr (b.get "Name") (pyOr (b.get "name") (.str "Unknown"))
    domain := pyOr (b.get "Domain") (b.get "domain")
    breachDate := pyOr (b.get "BreachDate") (b.get "breachDate")
    addedDate := pyOr (b.get "AddedDate") (b.get "addedDate")
    pwnCount := pyOr (b.get "PwnCount") (b.get "pwnCount")
    description := pyOr (b.get "Description") (b.get "description")
    dataClasses := pyOr (b.get "DataClasses") (pyOr (b.get "dataClasses") (.list []))
    isVerified :=
      if b.get "IsVerified" ≠ .none then b.get "IsVerified" else b.get "isVerified" }

/-- `s[:200]`: the first 200 characters of a string. -/
def truncate200 (s : String) : String := ⟨s.data.take 200⟩

/-- Truthiness of `os.getenv(...)`: `None` and the empty string are falsy. -/
def envTruthy : Option String → Bool
  | Option.none => false
  | some s => s != ""

/-- `requests.Response.ok`: true unless the status code lies in [400, 600). -/
def respOk (status : Nat) : Bool :=
  !(decide (400 ≤ status) && decide (status < 600))

/-- The characters after the last occurrence of a separator character
(the whole string when the separator never occurs): `s.split(sep)[-1]`. -/
def afterLast (sep : Char) (l : List Char) : List Char :=
  l.foldl (fun acc c => if c = sep then [] else acc ++ [c]) []

/-- `email.split("@")[-1].lower()` (src/main.py line 74). -/
def emailDomain (email : String) : String :=
  ⟨(afterLast '@' email.data).map Char.toLower⟩

/-- Demo data provider (src/main.py lines 72-89): one fixed synthetic raw
record for the domains `example.com` and `test.com`, empty otherwise. -/
def demoRaw (email : String) : List RawRecord :=
  let domain := emailDomain email
  if domain = "example.com" ∨ domain = "test.com" then
    [[("Name", .str "ExampleBreach"),
      ("Domain", .str domain),
      ("BreachDate", .str "2023-09-10"),
      ("AddedDate", .str "2023-10-01"),
      ("PwnCount", .int 12345),
      ("Description", .str "Sample demo breach to showcase UI."),
      ("DataClasses", .list ["Email addresses", "Passwords"]),
      ("IsVerified", .bool true)]]
  else []

/-- The persisted `Check` record (`schemas.Check`); `checked_at` is a
wall-clock timestamp and is omitted from the embedding (no claim reads it). -/
structure Check where
  email : String
  found : Bool
  count : Nat
  breaches : List Breach
  source : String
  is_demo : Bool
deriving DecidableEq, Repr

/-- The response body of `POST /api/check` (`EmailCheckResponse`). -/
structure Response where
  email : String
  found : Bool
  count : Nat
  breaches : List Breach
  source : String
  is_demo : Bool
deriving DecidableEq, Repr

/-- src/main.py lines 122-129: the response copies the `Check`'s fields. -/
def respond (c : Check) : Response :=
  { email := c.email, found := c.found, count := c.count,
    breaches := c.breaches, source := c.source, is_demo := c.is_demo }

/-- The outcome of the single outbound `requests.get` in real-lookup mode:
either an HTTP response (status, body text, and the result of `resp.json()`
as a list of raw records or a parse failure message), or a network-level
failure (timeout, connection error) carrying `str(e)`. -/
inductive Upstream where
  | http (status : Nat) (body : String) (parsed : Except String (List RawRecord))
  | netFail (msg : String)

/-- What the handler produces: a success response, or an HTTPException
carrying a status code and a detail string. -/
inductive HandlerResult where
  | ok (resp : Response)
  | httpError (status : Nat) (detail : String)
deriving DecidableEq, Repr

/-- src/main.py lines 116-120: `create_document` is called under
`try: ... except Exception: pass`, so both outcomes are discarded. -/
def attemptPersist (outcome : Except String Unit) : Unit :=
  match outcome with
  | .ok _ => ()
  | .error _ => ()

/-- Obtaining the raw breach list (src/main.py lines 61-89): real-lookup
dispatch on the upstream outcome when the credential is truthy, demo data
otherwise.  Errors carry the HTTPException's status and truncated detail. -/
def fetchRaw (email : String) (keyTruthy : Bool) (upstream : Upstream) :
    Except (Nat × String) (List RawRecord) :=
  if keyTruthy then
    match upstream with
    | .netFail msg => .error (500, truncate200 msg)
    | .http status body parsed =>
      if status = 404 then .ok []
      else if respOk status then
        match parsed with
        | .ok raw => .ok raw
        | .error e => .error (500, truncate200 e)
      else .error (status, truncate200 body)
  else .ok (demoRaw email)

/-- Normalization and `Check` construction (src/main.py lines 92-113). -/
def buildCheck (email : String) (keyTruthy : Bool) (raw : List RawRecord) : Check :=
  let breaches := raw.map normalizeBreach
  { email := email
    found := decide (breaches.length > 0)
    count := breaches.length
    breaches := breaches
    source := if keyTruthy then "hibp" else "demo"
    is_demo := !keyTruthy }

/-- The `POST /api/check` handler (src/main.py lines 36-134).
`hibp_key` is `os.getenv("HIBP_API_KEY")`; `upstream` is the outcome the
network would deliver in real-lookup mode (unused in demo mode, where no
outbound call occurs); `persist` is the outcome of `create_document`. -/
def check_email_breaches (email : String) (hibp_key : Option String)
    (upstream : Upstream) (persist : Except String Unit) : HandlerResult :=
  let keyTruthy := envTruthy hibp_key
  match fetchRaw email keyTruthy upstream with
  | .error (s, d) => .httpError s d
  | .ok raw =>
    let result := buildCheck email keyTruthy raw
    let _ := attemptPersist persist
    .ok (respond result)

/-- One value per `Breach` field, for building raw records that carry
equivalent values under different key-casing conventions. -/
structure FieldVals where
  name : PyVal
  domain : PyVal
  breachDate : PyVal
  addedDate : PyVal
  pwnCount : PyVal
  description : PyVal
  dataClasses : PyVal
  isVerified : PyVal

/-- The raw record carrying the given values under upper-camel keys only. -/
def upperRecord (v : FieldVals) : RawRecord :=
  [("Name", v.name), ("Domain", v.domain), ("BreachDate", v.breachDate),
   ("AddedDate", v.addedDate), ("PwnCount", v.pwnCount), ("Description", v.description),
   ("DataClasses", v.dataClasses), ("IsVerified", v.isVerified)]

/-- The raw record carrying the given values under lower-camel keys only. -/
def lowerRecord (v : FieldVals) : RawRecord :=
  [("name", v.name), ("domain", v.domain), ("breachDate", v.breachDate),
   ("addedDate", v.addedDate), ("pwnCount", v.pwnCount), ("description", v.description),
   ("dataClasses", v.dataClasses), ("isVerified", v.isVerified)]

/-- A per-field choice of casing convention: `true` selects the
upper-camel key for that field, `false` the lower-camel key. -/
structure MixChoice where
  name : Bool
  domain : Bool
  breachDate : Bool
  addedDate : Bool
  pwnCount : Bool
  description : Bool
  dataClasses : Bool
  isVerified : Bool

/-- The raw record carrying the given values under a mix of the two
conventions, one key per field as selected by `c`. -/
def mixedRecord (c : MixChoice) (v : FieldVals) : RawRecord :=
  [((if c.name then "Name" else "name"), v.name),
   ((if c.domain then "Domain" else "domain"), v.domain),
   ((if c.breachDate then "BreachDate" else "breachDate"), v.breachDate),
   ((if c.addedDate then "AddedDate" else "addedDate"), v.addedDate),
   ((if c.pwnCount then "PwnCount" else "pwnCount"), v.pwnCount),
   ((if c.description then "Description" else "description"), v.description),
   ((if c.dataClasses then "DataClasses" else "dataClasses"), v.dataClasses),
   ((if c.isVerified then "IsVerified" else "isVerified"), v.isVerified)]

lemma truthy_none : PyVal.none.truthy = false := rfl

lemma presence_ite_self (v : PyVal) :
    (if v ≠ PyVal.none then v else PyVal.none) = v := by
  split <;> simp_all

lemma presence_ite_self' (v : PyVal) :
    (if v = PyVal.none then PyVal.none else v) = v := by
  split <;> simp_all

set_option maxHeartbeats 2000000 in
/-- Normalization does not depend on which casing convention each field's
key uses, as long as the values on the asymmetric optional fields
(`domain`, `breachDate`, `addedDate`, `pwnCount`, `description`) are truthy. -/
lemma normalizeBreach_mixed_eq_upper (c : MixChoice) (v : FieldVals)
    (hd : v.domain.truthy = true) (hb : v.breachDate.truthy = true)
    (ha : v.addedDate.truthy = true) (hp : v.pwnCount.truthy = true)
    (hde : v.description.truthy = true) :
    normalizeBreach (mixedRecord c v) = normalizeBreach (upperRecord v) := by
  obtain ⟨n, d, b, a, p, de, dc, iv⟩ := c
  cases n <;> cases d <;> cases b <;> cases a <;> cases p <;> cases de <;> cases dc <;> cases iv <;>
    simp [normalizeBreach, mixedRecord, upperRecord, RawRecord.get, pyOr,
      List.lookup, presence_ite_self, presence_ite_self', truthy_none, hd, hb, ha, hp, hde]

lemma truncate200_length_le (s : String) : (truncate200 s).length ≤ 200 := by
  show (s.data.take 200).length ≤ 200
  simp [List.length_take]

/-- C2: every success response of the `/api/check` handler satisfies the
response invariants: `count` equals the length of `breaches`, `found`
holds exactly when `count > 0`, and `is_demo` holds exactly when
`source = "demo"`. -/
theorem C2_response_invariants (email : String) (hibp_key : Option String)
    (upstream : Upstream) (persist : Except String Unit) (resp : Response)
    (h : check_email_breaches email hibp_key upstream persist = .ok resp) :
    resp.count = resp.breaches.length ∧ (resp.found = true ↔ 0 < resp.count) ∧
      (resp.is_demo = true ↔ resp.source = "demo") := by
  simp only [check_email_breaches] at h
  cases hf : fetchRaw email (envTruthy hibp_key) upstream with
  | error e =>
    rw [hf] at h
    obtain ⟨s, d⟩ := e
    simp at h
  | ok raw =>
    rw [hf] at h
    simp only [HandlerResult.ok.injEq] at h
    subst h
    cases hk : envTruthy hibp_key <;>
      simp [respond, buildCheck, hk]

/-- C3: the persistence outcome never affects the handler's result: any
failure from `create_document` is swallowed and the result equals the one
produced when persistence succeeds, so the request does not fail. -/
theorem C3_persistence_failure_swallowed (email : String) (hibp_key : Option String)
    (upstream : Upstream) (msg : String) :
    check_email_breaches email hibp_key upstream (.error msg) =
      check_email_breaches email hibp_key upstream (.ok ()) := rfl

/-- C6: in real-lookup mode an upstream HTTP 404 is treated as "no
breaches": the handler succeeds with `found = false`, `count = 0`, an
empty breach list and `source = "hibp"`. -/
theorem C6_404_treated_as_no_breaches (email : String) (hibp_key : Option String)
    (hkey : envTruthy hibp_key = true) (body : String)
    (parsed : Except String (List RawRecord)) (persist : Except String Unit) :
    check_email_breaches email hibp_key (.http 404 body parsed) persist =
      .ok { email := email, found := false, count := 0, breaches := [],
            source := "hibp", is_demo := false } := by
  simp [check_email_breaches, fetchRaw, hkey, buildCheck, respond]

theorem C6_witness :
    check_email_breaches "a@b.com" (some "k") (.http 404 "" (.ok [])) (.ok ()) =
      .ok { email := "a@b.com", found := false, count := 0, breaches := [],
            source := "hibp", is_demo := false } :=
  C6_404_treated_as_no_breaches "a@b.com" (some "k") rfl "" (.ok []) (.ok ())

/-- C7: a raw record in which both casings of a key are absent gets the
field's default, without error: `name` becomes `"Unknown"` and
`dataClasses` becomes the empty list. -/
theorem C7_missing_keys_use_defaults (r : RawRecord) :
    (r.lookup "Name" = Option.none → r.lookup "name" = Option.none →
      (normalizeBreach r).name = .str "Unknown") ∧
    (r.lookup "DataClasses" = Option.none → r.lookup "dataClasses" = Option.none →
      (normalizeBreach r).dataClasses = .list []) := by
  constructor <;> intro h1 h2 <;>
    simp [normalizeBreach, RawRecord.get, h1, h2, pyOr, truthy_none]

theorem C7_witness :
    (normalizeBreach [("Domain", PyVal.str "d")]).name = .str "Unknown" ∧
    (normalizeBreach [("Domain", PyVal.str "d")]).dataClasses = .list [] :=
  ⟨(C7_missing_keys_use_defaults _).1 rfl rfl,
   (C7_missing_keys_use_defaults _).2 rfl rfl⟩

/-- C10: `isVerified` is resolved by presence rather than truthiness: a
record whose upper-camel `IsVerified` is `false` normalizes to
`isVerified = false`, with no fall-through to the lower-camel key. -/
theorem C10_isVerified_resolved_by_presence (r : RawRecord)
    (h : r.lookup "IsVerified" = some (PyVal.bool false)) :
    (normalizeBreach r).isVerified = PyVal.bool false := by
  simp [normalizeBreach, RawRecord.get, h]

theorem C10_witness :
    (normalizeBreach [("IsVerified", PyVal.bool false),
        ("isVerified", PyVal.bool true)]).isVerified = PyVal.bool false :=
  C10_isVerified_resolved_by_presence _ rfl

/-- C8 counterexample: a record carrying `0` only on the lower-camel
`pwnCount` key keeps the `0` (Python's `x or y` returns its last operand
even when falsy), contradicting the claim that a `0` on one casing always
falls through to the other key's value or to `None`. -/
theorem C8_counterexample :
    (normalizeBreach [("pwnCount", PyVal.int 0)]).pwnCount = PyVal.int 0 ∧
      (normalizeBreach [("pwnCount", PyVal.int 0)]).pwnCount ≠ PyVal.none := by
  decide

/-- C8 (amended): `pwnCount` is resolved by truthiness, so a `0` carried
on the upper-camel `PwnCount` key is discarded: the normalized `pwnCount`
is whatever the lower-camel lookup yields (its value, or `None` when
absent) instead of the `0`. -/
theorem C8_pwnCount_truthiness_fallthrough (r : RawRecord)
    (h : r.lookup "PwnCount" = some (PyVal.int 0)) :
    (normalizeBreach r).pwnCount = r.get "pwnCount" := by
  simp [normalizeBreach, RawRecord.get, h, pyOr, PyVal.truthy]

theorem C8_witness :
    (normalizeBreach [("PwnCount", PyVal.int 0),
        ("pwnCount", PyVal.int 7)]).pwnCount = PyVal.int 7 :=
  (C8_pwnCount_truthiness_fallthrough
    [("PwnCount", PyVal.int 0), ("pwnCount", PyVal.int 7)] rfl).trans (by decide)

/-- C4 counterexample: an upstream status of 300 is neither 2xx nor 404,
yet the handler does not fail: `requests.Response.ok` is true for every
status below 400, so the body is parsed and a success is returned. -/
theorem C4_counterexample :
    check_email_breaches "a@b.com" (some "key") (.http 300 "redirect" (.ok [])) (.ok ()) =
      .ok { email := "a@b.com", found := false, count := 0, breaches := [],
            source := "hibp", is_demo := false } := by
  decide

/-- C4 (amended): in real-lookup mode an upstream status in [400, 600)
other than 404 fails the request with that status and the upstream body
truncated to at most 200 characters, and a network-level failure fails it
with status 500 and a truncated message. -/
theorem C4_upstream_and_network_errors (email : String) (hibp_key : Option String)
    (hkey : envTruthy hibp_key = true) :
    (∀ status body parsed persist, 400 ≤ status → status < 600 → status ≠ 404 →
      check_email_breaches email hibp_key (.http status body parsed) persist =
          .httpError status (truncate200 body) ∧
        (truncate200 body).length ≤ 200) ∧
    (∀ msg persist,
      check_email_breaches email hibp_key (.netFail msg) persist =
          .httpError 500 (truncate200 msg) ∧
        (truncate200 msg).length ≤ 200) := by
  constructor
  · intro status body parsed persist h1 h2 h3
    refine ⟨?_, truncate200_length_le body⟩
    simp [check_email_breaches, fetchRaw, respOk, hkey, h1, h2, h3]
  · intro msg persist
    refine ⟨?_, truncate200_length_le msg⟩
    simp [check_email_breaches, fetchRaw, hkey]

theorem C4_witness :
    check_email_breaches "a@b.com" (some "k") (.http 503 "busy" (.ok [])) (.ok ()) =
        .httpError 503 "busy" ∧
    check_email_breaches "a@b.com" (some "k") (.netFail "timeout") (.ok ()) =
      .httpError 500 "timeout" := by
  have h := C4_upstream_and_network_errors "a@b.com" (some "k") rfl
  exact ⟨((h.1 503 "busy" (.ok []) (.ok ()) (by decide) (by decide) (by decide)).1).trans
           (by decide),
         ((h.2 "timeout" (.ok ())).1).trans (by decide)⟩

/-- C5: in demo mode, `"user@example.com"` yields `found = true`,
`count = 1`, `source = "demo"`, `is_demo = true` and exactly one breach
named `"ExampleBreach"`, while any email whose domain (substring after the
last `@`, lowercased) is neither `"example.com"` nor `"test.com"` yields
`found = false`, `count = 0` and an empty breach list with
`source = "demo"`. -/
theorem C5_demo_mode_behavior (upstream : Upstream) (persist : Except String Unit) :
    (check_email_breaches "user@example.com" Option.none upstream persist =
      .ok { email := "user@example.com", found := true, count := 1,
            breaches := [{ name := .str "ExampleBreach", domain := .str "example.com",
                           breachDate := .str "2023-09-10", addedDate := .str "2023-10-01",
                           pwnCount := .int 12345,
                           description := .str "Sample demo breach to showcase UI.",
                           dataClasses := .list ["Email addresses", "Passwords"],
                           isVerified := .bool true }],
            source := "demo", is_demo := true }) ∧
    (∀ email, emailDomain email ≠ "example.com" → emailDomain email ≠ "test.com" →
      check_email_breaches email Option.none upstream persist =
        .ok { email := email, found := false, count := 0, breaches := [],
              source := "demo", is_demo := true }) := by
  constructor
  · rfl
  · intro email h1 h2
    simp [check_email_breaches, fetchRaw, demoRaw, buildCheck, respond, envTruthy, h1, h2]

theorem C5_witness :
    check_email_breaches "user@unknown-domain.org" Option.none (.netFail "") (.ok ()) =
      .ok { email := "user@unknown-domain.org", found := false, count := 0, breaches := [],
            source := "demo", is_demo := true } :=
  (C5_demo_mode_behavior (.netFail "") (.ok ())).2 "user@unknown-domain.org"
    (by decide) (by decide)

/-- C9: normalization maps each raw record to exactly one canonical
`Breach` and preserves upstream order: the success response's breach list
is exactly the element-wise normalization of the raw list. -/
theorem C9_normalization_preserves_order (email : String) (hibp_key : Option String)
    (status : Nat) (body : String) (raw : List RawRecord)
    (persist : Except String Unit) (resp : Response)
    (hkey : envTruthy hibp_key = true) (h404 : status ≠ 404) (hok : respOk status = true)
    (h : check_email_breaches email hibp_key (.http status body (.ok raw)) persist = .ok resp) :
    resp.breaches = raw.map normalizeBreach ∧
    resp.breaches.length = raw.length ∧
    ∀ i : Nat, resp.breaches[i]? = Option.map normalizeBreach raw[i]? := by
  have hb : resp.breaches = raw.map normalizeBreach := by
    simp [check_email_breaches, fetchRaw, hkey, h404, hok] at h
    subst h
    rfl
  refine ⟨hb, ?_, ?_⟩
  · simp [hb]
  · intro i
    simp [hb]

theorem C2_witness :
    (Response.mk "a@b.com" false 0 [] "hibp" false).count =
        (Response.mk "a@b.com" false 0 [] "hibp" false).breaches.length ∧
      ((Response.mk "a@b.com" false 0 [] "hibp" false).found = true ↔
        0 < (Response.mk "a@b.com" false 0 [] "hibp" false).count) ∧
      ((Response.mk "a@b.com" false 0 [] "hibp" false).is_demo = true ↔
        (Response.mk "a@b.com" false 0 [] "hibp" false).source = "demo") :=
  C2_response_invariants "a@b.com" (some "k") (.http 404 "" (.ok [])) (.ok ())
    (Response.mk "a@b.com" false 0 [] "hibp" false) (by decide)

theorem C9_witness :
    (Response.mk "a@b.com" true 2
        [Breach.mk (.str "A") .none .none .none .none .none (.list []) .none,
         Breach.mk (.str "Unknown") .none .none .none (.int 3) .none (.list []) .none]
        "hibp" false).breaches =
        [[("Name", PyVal.str "A")], [("pwnCount", PyVal.int 3)]].map normalizeBreach ∧
      (Response.mk "a@b.com" true 2
        [Breach.mk (.str "A") .none .none .none .none .none (.list []) .none,
         Breach.mk (.str "Unknown") .none .none .none (.int 3) .none (.list []) .none]
        "hibp" false).breaches.length =
        ([[("Name", PyVal.str "A")], [("pwnCount", PyVal.int 3)]] : List RawRecord).length ∧
      ∀ i : Nat,
        (Response.mk "a@b.com" true 2
          [Breach.mk (.str "A") .none .none .none .none .none (.list []) .none,
           Breach.mk (.str "Unknown") .none .none .none (.int 3) .none (.list []) .none]
          "hibp" false).breaches[i]? =
          Option.map normalizeBreach
            ([[("Name", PyVal.str "A")], [("pwnCount", PyVal.int 3)]] : List RawRecord)[i]? :=
  C9_normalization_preserves_order "a@b.com" (some "k") 200 ""
    [[("Name", PyVal.str "A")], [("pwnCount", PyVal.int 3)]] (.ok ())
    (Response.mk "a@b.com" true 2
      [Breach.mk (.str "A") .none .none .none .none .none (.list []) .none,
       Breach.mk (.str "Unknown") .none .none .none (.int 3) .none (.list []) .none]
      "hibp" false)
    rfl (by decide) rfl (by decide)

/-- C1 counterexample: two raw records carrying equivalent values for
every field — one under upper-camel keys only, one under lower-camel keys
only — normalize differently when the `pwnCount` value is `0`: the
upper-camel record loses the `0` (truthiness fall-through to `None`)
while the lower-camel record keeps it. -/
theorem C1_counterexample :
    normalizeBreach (upperRecord (FieldVals.mk (.str "B") (.str "b.com")
        (.str "2020-01-01") (.str "2020-02-01") (.int 0) (.str "desc")
        (.list ["Emails"]) (.bool true))) ≠
      normalizeBreach (lowerRecord (FieldVals.mk (.str "B") (.str "b.com")
        (.str "2020-01-01") (.str "2020-02-01") (.int 0) (.str "desc")
        (.list ["Emails"]) (.bool true))) := by
  decide

/-- C1 (amended): normalizing an upper-camel-only version, a
lower-camel-only version, and an arbitrarily mixed version of a raw
record carrying equivalent values for each field produces identical
canonical output, provided the values carried on the asymmetric optional
fields (`domain`, `breachDate`, `addedDate`, `pwnCount`, `description`)
are truthy (the counterexample shows a falsy `0` breaks the symmetry). -/
theorem C1_casing_invariance (v : FieldVals) (c : MixChoice)
    (hd : v.domain.truthy = true) (hb : v.breachDate.truthy = true)
    (ha : v.addedDate.truthy = true) (hp : v.pwnCount.truthy = true)
    (hde : v.description.truthy = true) :
    normalizeBreach (upperRecord v) = normalizeBreach (lowerRecord v) ∧
      normalizeBreach (mixedRecord c v) = normalizeBreach (upperRecord v) := by
  have hlow := normalizeBreach_mixed_eq_upper
    (MixChoice.mk false false false false false false false false) v hd hb ha hp hde
  exact ⟨hlow.symm, normalizeBreach_mixed_eq_upper c v hd hb ha hp hde⟩

theorem C1_witness :
    normalizeBreach (upperRecord (FieldVals.mk (.str "B") (.str "b.com")
        (.str "2020-01-01") (.str "2020-02-01") (.int 5) (.str "desc")
        (.list ["Emails"]) (.bool true))) =
      normalizeBreach (lowerRecord (FieldVals.mk (.str "B") (.str "b.com")
        (.str "2020-01-01") (.str "2020-02-01") (.int 5) (.str "desc")
        (.list ["Emails"]) (.bool true))) ∧
    normalizeBreach (mixedRecord (MixChoice.mk true false true false true false true false)
        (FieldVals.mk (.str "B") (.str "b.com")
          (.str "2020-01-01") (.str "2020-02-01") (.int 5) (.str "desc")
          (.list ["Emails"]) (.bool true))) =
      normalizeBreach (upperRecord (FieldVals.mk (.str "B") (.str "b.com")
        (.str "2020-01-01") (.str "2020-02-01") (.int 5) (.str "desc")
        (.list ["Emails"]) (.bool true))) :=
  C1_casing_invariance
    (FieldVals.mk (.str "B") (.str "b.com") (.str "2020-01-01") (.str "2020-02-01")
      (.int 5) (.str "desc") (.list ["Emails"]) (.bool true))
    (MixChoice.mk true false true false true false true false)
    rfl rfl rfl rfl rfl
